import Mathlib

/-!
Verification of the announcements router of the school management system
(`src/backend/routers/announcements.py`).

The router is a thin CRUD layer over two MongoDB collections:
`announcements_collection` (the Announcement Store) and `teachers_collection`
(the Teacher Directory).  We embed it shallowly: the two collections become a
`DB` record, each endpoint becomes a pure function from its request parameters
and the current database state to a result (`Except ApiError ...`) together
with the database state after the call.  Store-generated values (the fresh
ObjectId chosen by `insert_one`, the wall-clock timestamps produced by
`datetime.now()`) are passed as explicit parameters.

String-valued dates are compared exactly as MongoDB compares them — bytewise
lexicographically — via `strLe` below; `datetime.strptime(s, "%Y-%m-%d")`
is modelled by `validDate`, and `bson.ObjectId(s)` validity by
`isValidObjectId` (a 24-character hexadecimal string).
-/

namespace Announcements

/-- Python's `str.strip()` on the character list: drop whitespace from both ends. -/
def pyStripList (l : List Char) : List Char :=
  ((l.dropWhile Char.isWhitespace).reverse.dropWhile Char.isWhitespace).reverse

/-- Python's `str.strip()`. -/
def pyStrip (s : String) : String :=
  String.mk (pyStripList s.data)

/-- Lexicographic (code-point) comparison of character lists; this is the
order MongoDB uses for its `$gte`/`$lte` string comparisons and for sorting
string fields. -/
def charListLe : List Char → List Char → Bool
  | [], _ => true
  | _ :: _, [] => false
  | a :: as, b :: bs =>
    if a < b then true
    else if b < a then false
    else charListLe as bs

/-- MongoDB string comparison `a <= b`. -/
def strLe (a b : String) : Bool :=
  charListLe a.data b.data

/-- Numeric value of a digit string (only meaningful when all characters are
digits). -/
def digitsVal (l : List Char) : Nat :=
  l.foldl (fun acc c => acc * 10 + (c.toNat - 48)) 0

/-- `str.split`-style splitting of a character list at every dash. -/
def splitDash : List Char → List (List Char)
  | [] => [[]]
  | c :: rest =>
    if c = '-' then [] :: splitDash rest
    else
      match splitDash rest with
      | [] => [[c]]
      | g :: gs => (c :: g) :: gs

/-- Length of month `m` in year `y`, with the Gregorian leap rule, as used by
Python's `datetime` validation. -/
def monthLen (y m : Nat) : Nat :=
  if m = 2 then
    if (y % 4 = 0 && y % 100 ≠ 0) || y % 400 = 0 then 29 else 28
  else if m = 4 || m = 6 || m = 9 || m = 11 then 30 else 31

/-- Model of `datetime.strptime(s, "%Y-%m-%d")` succeeding: exactly two
dashes; a 4-digit year (Python's `%Y` regex is `\d\d\d\d`, and year 0 is
below `MINYEAR`); a 1–2 digit month in 1..12; a 1–2 digit day valid for that
month and year. -/
def validDate (s : String) : Bool :=
  match splitDash s.data with
  | [ys, ms, ds] =>
    ys.length = 4 && ys.all Char.isDigit &&
    (1 ≤ ms.length && ms.length ≤ 2) && ms.all Char.isDigit &&
    (1 ≤ ds.length && ds.length ≤ 2) && ds.all Char.isDigit &&
    (1 ≤ digitsVal ys) &&
    (1 ≤ digitsVal ms && digitsVal ms ≤ 12) &&
    (1 ≤ digitsVal ds && digitsVal ds ≤ monthLen (digitsVal ys) (digitsVal ms))
  | _ => false

/-- A character that hexadecimal notation accepts. -/
def isHexChar (c : Char) : Bool :=
  c.isDigit || (('a' ≤ c && c ≤ 'f') || ('A' ≤ c && c ≤ 'F'))

/-- Model of `bson.ObjectId(s)` succeeding on a string: `s` is a 24-character
hexadecimal string (otherwise the constructor raises `InvalidId`). -/
def isValidObjectId (s : String) : Bool :=
  s.data.length = 24 && s.data.all isHexChar

/-- The code guards the optional start date with Python truthiness
(`if start_date: datetime.strptime(start_date, "%Y-%m-%d")`): absent (`None`)
and empty strings are not validated at all. -/
def startDateOk : Option String → Bool
  | none => true
  | some s => s.data.isEmpty || validDate s

/-- An announcement document as stored in `announcements_collection`.
`oid` is the MongoDB `_id` rendered as its 24-character hex string;
`start_date` is `none` when the field is absent or null; `updated_by` and
`updated_at` are absent until the first update. -/
structure Announcement where
  oid : String
  message : String
  start_date : Option String
  expiration_date : String
  created_by : String
  created_at : String
  updated_by : Option String
  updated_at : Option String
deriving DecidableEq, Repr

/-- The JSON shape produced by `serialize_announcement`: the document with
`_id` replaced by the string field `id`. -/
structure AnnouncementOut where
  id : String
  message : String
  start_date : Option String
  expiration_date : String
  created_by : String
  created_at : String
  updated_by : Option String
  updated_at : Option String
deriving DecidableEq, Repr

/-- `serialize_announcement`: set `id = str(_id)`, delete `_id`. -/
def serialize_announcement (a : Announcement) : AnnouncementOut :=
  { id := a.oid
    message := a.message
    start_date := a.start_date
    expiration_date := a.expiration_date
    created_by := a.created_by
    created_at := a.created_at
    updated_by := a.updated_by
    updated_at := a.updated_at }

/-- The two external collections: the Announcement Store and the Teacher
Directory (teacher `_id`s, i.e. usernames). -/
structure DB where
  announcements : List Announcement
  teachers : List String
deriving DecidableEq, Repr

/-- The error taxonomy of the router (HTTPException status/detail pairs). -/
inductive ApiError where
  | unauthorized
  | invalidId
  | notFound
  | invalidDate
  | emptyMessage
  | updateFailed
deriving DecidableEq, Repr

/-- The `active_only` filter of `get_announcements`: not expired
(`expiration_date >= current_date`) and (`start_date` absent, null, or
`start_date <= current_date`). -/
def isActive (current_date : String) (a : Announcement) : Bool :=
  strLe current_date a.expiration_date &&
    (match a.start_date with
     | none => true
     | some s => strLe s current_date)

/-- The MongoDB sort key `("created_at", -1)` as a relation: `a` may precede
`b` when `a.created_at >= b.created_at`. -/
def createdDesc (a b : Announcement) : Prop :=
  strLe b.created_at a.created_at = true

instance : DecidableRel createdDesc := fun a b =>
  inferInstanceAs (Decidable (strLe b.created_at a.created_at = true))

/-- `announcements_collection.find(query).sort("created_at", -1)`. -/
def sortByCreatedDesc (l : List Announcement) : List Announcement :=
  l.insertionSort createdDesc

/-- `GET /announcements` (`get_announcements`): filter to active documents
when `active_only`, sort by `created_at` descending, serialize. -/
def get_announcements (active_only : Bool) (current_date : String) (db : DB) :
    List AnnouncementOut :=
  let docs :=
    if active_only then db.announcements.filter (isActive current_date)
    else db.announcements
  (sortByCreatedDesc docs).map serialize_announcement

/-- `find_one({"_id": ObjectId(x)})` on the announcements collection. -/
def findById (l : List Announcement) (announcement_id : String) :
    Option Announcement :=
  l.find? (fun a => a.oid = announcement_id)

/-- `GET /announcements/{id}` (`get_announcement`): `ObjectId` parsing
failure is a 400, a missing document a 404, otherwise the serialized
document. -/
def get_announcement (announcement_id : String) (db : DB) :
    Except ApiError AnnouncementOut :=
  if isValidObjectId announcement_id then
    match findById db.announcements announcement_id with
    | none => Except.error ApiError.notFound
    | some a => Except.ok (serialize_announcement a)
  else Except.error ApiError.invalidId

/-- The teacher-authentication probe
`teachers_collection.find_one({"_id": teacher_username})`. -/
def teacherExists (db : DB) (teacher_username : String) : Bool :=
  db.teachers.contains teacher_username

/-- The date validation shared by create and update: `expiration_date` must
parse, and a truthy `start_date` must parse. -/
def datesOk (expiration_date : String) (start_date : Option String) : Bool :=
  validDate expiration_date && startDateOk start_date

/-- The announcement dict literal built by `create_announcement` (plus the
`_id` that `insert_one` assigns to it on insertion). -/
def createdDoc (message expiration_date : String)
    (start_date : Option String) (teacher_username now newId : String) :
    Announcement :=
  { oid := newId
    message := pyStrip message
    start_date := start_date
    expiration_date := expiration_date
    created_by := teacher_username
    created_at := now
    updated_by := none
    updated_at := none }

/-- `POST /announcements` (`create_announcement`).  `now` is the value of
`datetime.now().isoformat()` and `newId` the fresh ObjectId (as hex string)
that `insert_one` assigns.  Returns the response and the store afterwards. -/
def create_announcement (message expiration_date : String)
    (start_date : Option String) (teacher_username now newId : String)
    (db : DB) : Except ApiError AnnouncementOut × DB :=
  if teacherExists db teacher_username then
    if datesOk expiration_date start_date then
      if pyStrip message = "" then (Except.error ApiError.emptyMessage, db)
      else
        let doc := createdDoc message expiration_date start_date
          teacher_username now newId
        (Except.ok (serialize_announcement doc),
         { db with announcements := db.announcements ++ [doc] })
    else (Except.error ApiError.invalidDate, db)
  else (Except.error ApiError.unauthorized, db)

/-- The `$set` document of `update_announcement` applied to a stored
document: replace `message` (trimmed), `start_date`, `expiration_date`, set
`updated_by` and `updated_at`; everything else is untouched. -/
def applySet (message : String) (start_date : Option String)
    (expiration_date teacher_username now : String) (a : Announcement) :
    Announcement :=
  { a with
    message := pyStrip message
    start_date := start_date
    expiration_date := expiration_date
    updated_by := some teacher_username
    updated_at := some now }

/-- `update_one` on a collection: rewrite the first document matching the
`_id`, leave the rest alone. -/
def updateFirst (l : List Announcement) (announcement_id : String)
    (f : Announcement → Announcement) : List Announcement :=
  match l with
  | [] => []
  | a :: rest =>
    if a.oid = announcement_id then f a :: rest
    else a :: updateFirst rest announcement_id f

/-- `PUT /announcements/{id}` (`update_announcement`), in the exact order of
the source: authenticate, parse the id, check existence, validate dates,
validate the message, `update_one` with `$set`, raise 500 if the store
reported neither a match nor a modification, then re-read and serialize the
document (`find_one` can in principle return `None`, which the endpoint
would pass through — hence the `Option` in the success payload). -/
def update_announcement (announcement_id message expiration_date : String)
    (start_date : Option String) (teacher_username now : String) (db : DB) :
    Except ApiError (Option AnnouncementOut) × DB :=
  if teacherExists db teacher_username then
    if isValidObjectId announcement_id then
      match findById db.announcements announcement_id with
      | none => (Except.error ApiError.notFound, db)
      | some existing =>
        if datesOk expiration_date start_date then
          if pyStrip message = "" then (Except.error ApiError.emptyMessage, db)
          else
            let f := applySet message start_date expiration_date
              teacher_username now
            let matched : Nat :=
              if (findById db.announcements announcement_id).isSome then 1 else 0
            let modified : Nat := if f existing = existing then 0 else 1
            let db' : DB :=
              { db with
                announcements := updateFirst db.announcements announcement_id f }
            if modified = 0 && matched = 0 then
              (Except.error ApiError.updateFailed, db')
            else
              (Except.ok
                ((findById db'.announcements announcement_id).map
                  serialize_announcement),
               db')
        else (Except.error ApiError.invalidDate, db)
    else (Except.error ApiError.invalidId, db)
  else (Except.error ApiError.unauthorized, db)

/-- `delete_one` on a collection: remove the first document matching the
`_id`. -/
def eraseFirst (l : List Announcement) (announcement_id : String) :
    List Announcement :=
  match l with
  | [] => []
  | a :: rest =>
    if a.oid = announcement_id then rest
    else a :: eraseFirst rest announcement_id

/-- `DELETE /announcements/{id}` (`delete_announcement`): authenticate,
parse the id, `delete_one`; a zero `deleted_count` is a 404, otherwise the
fixed confirmation message. -/
def delete_announcement (announcement_id teacher_username : String)
    (db : DB) : Except ApiError String × DB :=
  if teacherExists db teacher_username then
    if isValidObjectId announcement_id then
      let deleted : Nat :=
        if (findById db.announcements announcement_id).isSome then 1 else 0
      let db' : DB :=
        { db with announcements := eraseFirst db.announcements announcement_id }
      if deleted = 0 then (Except.error ApiError.notFound, db')
      else (Except.ok "Announcement deleted successfully", db')
    else (Except.error ApiError.invalidId, db)
  else (Except.error ApiError.unauthorized, db)

/-- The spec's activity predicate (§3): active at date D iff
`expiration_date >= D` and (`start_date` is absent, null, or
`start_date <= D`). -/
def activeSpec (a : Announcement) (current_date : String) : Prop :=
  strLe current_date a.expiration_date = true ∧
    (a.start_date = none ∨
      ∃ s, a.start_date = some s ∧ strLe s current_date = true)

/-! ### Order facts about the MongoDB string comparison

These proofs are stated with `def` so that the order instances below them —
needed by the sorting lemmas — still belong to the definition layer of the
file. -/

def charListLe_total : ∀ as bs : List Char,
    charListLe as bs = true ∨ charListLe bs as = true := by
  intro as
  induction as with
  | nil => intro bs; exact Or.inl rfl
  | cons a as ih =>
    intro bs
    cases bs with
    | nil => exact Or.inr rfl
    | cons b bs =>
      simp only [charListLe]
      rcases lt_trichotomy a b with hab | hab | hab
      · exact Or.inl (by simp [hab])
      · subst hab
        rcases ih bs with h | h
        · exact Or.inl (by simp [lt_irrefl, h])
        · exact Or.inr (by simp [lt_irrefl, h])
      · exact Or.inr (by simp [hab])

def charListLe_trans : ∀ as bs cs : List Char,
    charListLe as bs = true → charListLe bs cs = true →
    charListLe as cs = true := by
  intro as
  induction as with
  | nil => intro bs cs _ _; rfl
  | cons a as ih =>
    intro bs cs h1 h2
    cases bs with
    | nil => simp [charListLe] at h1
    | cons b bs =>
      cases cs with
      | nil => simp [charListLe] at h2
      | cons c cs =>
        simp only [charListLe] at h1 h2 ⊢
        rcases lt_trichotomy a b with hab | hab | hab
        · rcases lt_trichotomy b c with hbc | hbc | hbc
          · simp [lt_trans hab hbc]
          · subst hbc; simp [hab]
          · simp [hbc, lt_asymm hbc] at h2
        · subst hab
          rcases lt_trichotomy a c with hac | hac | hac
          · simp [hac]
          · subst hac
            simp only [lt_irrefl, if_false] at h1 h2 ⊢
            exact ih _ _ h1 h2
          · simp [hac, lt_asymm hac] at h2
        · simp [hab, lt_asymm hab] at h1

instance : IsTotal Announcement createdDesc :=
  ⟨fun a b => charListLe_total b.created_at.data a.created_at.data⟩

instance : IsTrans Announcement createdDesc :=
  ⟨fun _ _ _ h1 h2 => charListLe_trans _ _ _ h2 h1⟩

def isActive_iff (a : Announcement) (d : String) :
    isActive d a = true ↔ activeSpec a d := by
  unfold isActive activeSpec
  cases h : a.start_date with
  | none => simp
  | some s => simp [Bool.and_eq_true]

instance (a : Announcement) (d : String) : Decidable (activeSpec a d) :=
  decidable_of_iff (isActive d a = true) (isActive_iff a d)

/-! ### Concrete fixtures (used to instantiate the theorems) -/

/-- A 24-character hex ObjectId string. -/
def oid0 : String := "507f1f77bcf86cd799439011"

/-- A second, distinct ObjectId string. -/
def oid1 : String := "507f1f77bcf86cd799439012"

/-- A store with no announcements and one teacher. -/
def db0 : DB := { announcements := [], teachers := ["alice"] }

/-- A stored announcement with id `oid0`. -/
def doc0 : Announcement :=
  { oid := oid0
    message := "Homework due"
    start_date := none
    expiration_date := "2099-01-01"
    created_by := "alice"
    created_at := "2025-01-01T08:00:00"
    updated_by := none
    updated_at := none }

/-- A store holding `doc0`, with one teacher. -/
def db1 : DB := { announcements := [doc0], teachers := ["alice"] }

theorem decide_activeSpec (a : Announcement) (d : String) :
    decide (activeSpec a d) = isActive d a := by
  cases hIA : isActive d a with
  | true => simp [(isActive_iff a d).mp hIA]
  | false =>
    have h : ¬ activeSpec a d := fun hc => by
      simp [(isActive_iff a d).mpr hc] at hIA
    simp [h]

theorem serialize_created_at (a : Announcement) :
    (serialize_announcement a).created_at = a.created_at := rfl

/-- C1. `list(active_only=true)` at date D returns exactly the announcements
satisfying the spec's `active(A, D)` predicate, sorted by `created_at`
descending; `list(active_only=false)` returns all of them in that order. -/
theorem list_returns_active_sorted (db : DB) (d : String) :
    List.Perm (get_announcements true d db)
      ((db.announcements.filter (fun a => decide (activeSpec a d))).map
        serialize_announcement) ∧
    List.Pairwise
      (fun x y : AnnouncementOut => strLe y.created_at x.created_at = true)
      (get_announcements true d db) ∧
    List.Perm (get_announcements false d db)
      (db.announcements.map serialize_announcement) ∧
    List.Pairwise
      (fun x y : AnnouncementOut => strLe y.created_at x.created_at = true)
      (get_announcements false d db) := by
  have hsorted : ∀ l : List Announcement,
      List.Pairwise
        (fun x y : AnnouncementOut => strLe y.created_at x.created_at = true)
        ((sortByCreatedDesc l).map serialize_announcement) := by
    intro l
    refine List.pairwise_map.mpr ?_
    have := List.sorted_insertionSort createdDesc l
    exact this.imp (fun h => h)
  refine ⟨?_, hsorted _, ?_, hsorted _⟩
  · have hfil : db.announcements.filter (isActive d) =
        db.announcements.filter (fun a => decide (activeSpec a d)) :=
      List.filter_congr (fun a _ => (decide_activeSpec a d).symm)
    have hperm := List.perm_insertionSort createdDesc
      (db.announcements.filter (isActive d))
    simpa [get_announcements, sortByCreatedDesc, hfil] using
      (hperm.map serialize_announcement).trans
        (List.Perm.refl _)
  · have hperm := List.perm_insertionSort createdDesc db.announcements
    simpa [get_announcements, sortByCreatedDesc] using
      hperm.map serialize_announcement

/-! ### The create endpoint -/

theorem datesOk_of_valid (expiration_date : String) (start_date : Option String)
    (hE : validDate expiration_date = true)
    (hS : ∀ s, start_date = some s → validDate s = true) :
    datesOk expiration_date start_date = true := by
  unfold datesOk startDateOk
  cases hsd : start_date with
  | none => simp [hE]
  | some s => simp [hE, hS s hsd]

theorem create_eq_of_valid
    (db : DB) (message expiration_date : String) (start_date : Option String)
    (teacher now newId : String)
    (hA : teacherExists db teacher = true)
    (hE : validDate expiration_date = true)
    (hS : ∀ s, start_date = some s → validDate s = true)
    (hM : pyStrip message ≠ "") :
    create_announcement message expiration_date start_date teacher now newId
        db =
      (Except.ok (serialize_announcement
        (createdDoc message expiration_date start_date teacher now newId)),
       { db with announcements := db.announcements ++
          [createdDoc message expiration_date start_date teacher now newId] }) := by
  simp [create_announcement, hA, hM,
    datesOk_of_valid expiration_date start_date hE hS]

/-- C2. A create call with an authenticated teacher, valid dates and a
message that is non-empty after trimming persists exactly one new document —
trimmed message, dates as given (no defaulting of `start_date`), creator and
creation timestamp — appended to the store, returns that full record with
the fresh `_id` serialized as the string field `id`, and the fresh id keeps
the store ids unique. -/
theorem create_persists_full_record
    (db : DB) (message expiration_date : String) (start_date : Option String)
    (teacher now newId : String)
    (hA : teacherExists db teacher = true)
    (hE : validDate expiration_date = true)
    (hS : ∀ s, start_date = some s → validDate s = true)
    (hM : pyStrip message ≠ "")
    (hFresh : ∀ a ∈ db.announcements, a.oid ≠ newId)
    (hNodup : (db.announcements.map Announcement.oid).Nodup) :
    create_announcement message expiration_date start_date teacher now newId
        db =
      (Except.ok (serialize_announcement
        (createdDoc message expiration_date start_date teacher now newId)),
       { db with announcements := db.announcements ++
          [createdDoc message expiration_date start_date teacher now
            newId] }) ∧
    (serialize_announcement
      (createdDoc message expiration_date start_date teacher now newId)).id =
        newId ∧
    (createdDoc message expiration_date start_date teacher now
      newId).message = pyStrip message ∧
    (createdDoc message expiration_date start_date teacher now
      newId).start_date = start_date ∧
    (createdDoc message expiration_date start_date teacher now
      newId).expiration_date = expiration_date ∧
    (createdDoc message expiration_date start_date teacher now
      newId).created_by = teacher ∧
    (createdDoc message expiration_date start_date teacher now
      newId).created_at = now ∧
    ((db.announcements ++
        [createdDoc message expiration_date start_date teacher now
          newId]).map Announcement.oid).Nodup := by
  refine ⟨create_eq_of_valid db message expiration_date start_date teacher
    now newId hA hE hS hM, rfl, rfl, rfl, rfl, rfl, rfl, ?_⟩
  rw [List.map_append]
  refine List.Nodup.append hNodup (by simp) ?_
  intro x hx hmem
  simp [createdDoc] at hmem
  rcases List.mem_map.mp hx with ⟨a, ha, rfl⟩
  exact hFresh a ha hmem

theorem create_persists_full_record_witness :
    teacherExists db0 "alice" = true ∧
    pyStrip " Exam Friday " ≠ "" ∧
    create_announcement " Exam Friday " "2099-01-01" none "alice"
        "2025-01-02T09:30:00" oid0 db0 =
      (Except.ok
        { id := oid0
          message := "Exam Friday"
          start_date := none
          expiration_date := "2099-01-01"
          created_by := "alice"
          created_at := "2025-01-02T09:30:00"
          updated_by := none
          updated_at := none },
       { announcements :=
          [{ oid := oid0
             message := "Exam Friday"
             start_date := none
             expiration_date := "2099-01-01"
             created_by := "alice"
             created_at := "2025-01-02T09:30:00"
             updated_by := none
             updated_at := none }]
         teachers := ["alice"] }) := by
  refine ⟨by decide, by decide, ?_⟩
  rw [(create_persists_full_record db0 " Exam Friday " "2099-01-01" none
    "alice" "2025-01-02T09:30:00" oid0 (by decide) (by decide)
    (fun s h => nomatch h) (by decide)
    (fun a ha => nomatch ha) (by simp [db0])).1]
  rfl

/-- `find_one` after appending a document whose `_id` occurs nowhere in the
collection finds exactly that document. -/
theorem findById_append_fresh (doc : Announcement) :
    ∀ l : List Announcement, (∀ a ∈ l, a.oid ≠ doc.oid) →
    findById (l ++ [doc]) doc.oid = some doc := by
  intro l
  induction l with
  | nil => intro _; simp [findById]
  | cons a rest ih =>
    intro h
    have ha : a.oid ≠ doc.oid := h a (by simp)
    have hrest := ih (fun b hb => h b (by simp [hb]))
    simpa [findById, List.find?, ha] using hrest

/-- C3. Round-trip: after a successful create, a `get` on the returned id
succeeds and returns exactly the record create returned. -/
theorem create_get_roundtrip
    (db : DB) (message expiration_date : String) (start_date : Option String)
    (teacher now newId : String)
    (hA : teacherExists db teacher = true)
    (hE : validDate expiration_date = true)
    (hS : ∀ s, start_date = some s → validDate s = true)
    (hM : pyStrip message ≠ "")
    (hFresh : ∀ a ∈ db.announcements, a.oid ≠ newId)
    (hV : isValidObjectId newId = true) :
    (create_announcement message expiration_date start_date teacher now newId
        db).1 =
      Except.ok (serialize_announcement
        (createdDoc message expiration_date start_date teacher now newId)) ∧
    get_announcement newId
        (create_announcement message expiration_date start_date teacher now
          newId db).2 =
      Except.ok (serialize_announcement
        (createdDoc message expiration_date start_date teacher now newId)) := by
  have hcr := create_eq_of_valid db message expiration_date start_date
    teacher now newId hA hE hS hM
  rw [hcr]
  refine ⟨rfl, ?_⟩
  have hfind : findById
      (db.announcements ++
        [createdDoc message expiration_date start_date teacher now newId])
      newId =
      some (createdDoc message expiration_date start_date teacher now
        newId) := findById_append_fresh
    (createdDoc message expiration_date start_date teacher now newId)
    db.announcements hFresh
  simp [get_announcement, hV, hfind]

theorem create_get_roundtrip_witness :
    isValidObjectId oid0 = true ∧
    get_announcement oid0
        (create_announcement " Exam Friday " "2099-01-01" none "alice"
          "2025-01-02T09:30:00" oid0 db0).2 =
      Except.ok
        { id := oid0
          message := "Exam Friday"
          start_date := none
          expiration_date := "2099-01-01"
          created_by := "alice"
          created_at := "2025-01-02T09:30:00"
          updated_by := none
          updated_at := none } := by
  refine ⟨by decide, ?_⟩
  rw [(create_get_roundtrip db0 " Exam Friday " "2099-01-01" none "alice"
    "2025-01-02T09:30:00" oid0 (by decide) (by decide)
    (fun s h => nomatch h) (by decide) (fun a ha => nomatch ha)
    (by decide)).2]
  rfl

/-! ### The update endpoint -/

theorem updateFirst_length (announcement_id : String)
    (f : Announcement → Announcement) :
    ∀ l : List Announcement,
    (updateFirst l announcement_id f).length = l.length := by
  intro l
  induction l with
  | nil => rfl
  | cons a rest ih =>
    by_cases ha : a.oid = announcement_id
    · simp [updateFirst, ha]
    · simp [updateFirst, ha, ih]

theorem updateFirst_mem_of_ne (announcement_id : String)
    (f : Announcement → Announcement) :
    ∀ l : List Announcement, ∀ b ∈ l, b.oid ≠ announcement_id →
    b ∈ updateFirst l announcement_id f := by
  intro l
  induction l with
  | nil => intro b hb; cases hb
  | cons a rest ih =>
    intro b hb hbne
    by_cases ha : a.oid = announcement_id
    · have hba : b ≠ a := fun h => hbne (h ▸ ha)
      have : b ∈ rest := (List.mem_cons.mp hb).resolve_left hba
      simp [updateFirst, ha, this]
    · rcases List.mem_cons.mp hb with rfl | hbr
      · simp [updateFirst, ha]
      · simp [updateFirst, ha, ih b hbr hbne]

theorem findById_updateFirst (announcement_id : String)
    (f : Announcement → Announcement) :
    ∀ (l : List Announcement) (a : Announcement),
    findById l announcement_id = some a → (f a).oid = a.oid →
    findById (updateFirst l announcement_id f) announcement_id =
      some (f a) := by
  intro l
  induction l with
  | nil => intro a h; simp [findById] at h
  | cons b rest ih =>
    intro a h hoid
    by_cases hb : b.oid = announcement_id
    · have hba : b = a := by simpa [findById, List.find?, hb] using h
      subst hba
      simp [updateFirst, hb, findById, List.find?, hoid.trans hb]
    · have hrest : findById rest announcement_id = some a := by
        simpa [findById, List.find?, hb] using h
      simpa [updateFirst, hb, findById, List.find?] using ih a hrest hoid

/-- C4. A successful update replaces exactly `message` (trimmed),
`start_date` and `expiration_date`, sets `updated_by`/`updated_at`, leaves
`created_by`/`created_at` and the document id untouched, touches no other
document and neither the teacher collection nor the store size, and the
response is the document re-read from the store after the write. -/
theorem update_overwrites_and_rereads
    (db : DB) (announcement_id message expiration_date : String)
    (start_date : Option String) (teacher now : String) (old : Announcement)
    (hA : teacherExists db teacher = true)
    (hV : isValidObjectId announcement_id = true)
    (hFind : findById db.announcements announcement_id = some old)
    (hE : validDate expiration_date = true)
    (hS : ∀ s, start_date = some s → validDate s = true)
    (hM : pyStrip message ≠ "") :
    update_announcement announcement_id message expiration_date start_date
        teacher now db =
      (Except.ok (some (serialize_announcement
        (applySet message start_date expiration_date teacher now old))),
       { db with announcements :=
          (updateFirst db.announcements announcement_id
            (applySet message start_date expiration_date teacher now)) }) ∧
    (applySet message start_date expiration_date teacher now old).message =
      pyStrip message ∧
    (applySet message start_date expiration_date teacher now
      old).start_date = start_date ∧
    (applySet message start_date expiration_date teacher now
      old).expiration_date = expiration_date ∧
    (applySet message start_date expiration_date teacher now
      old).updated_by = some teacher ∧
    (applySet message start_date expiration_date teacher now
      old).updated_at = some now ∧
    (applySet message start_date expiration_date teacher now
      old).created_by = old.created_by ∧
    (applySet message start_date expiration_date teacher now
      old).created_at = old.created_at ∧
    (applySet message start_date expiration_date teacher now old).oid =
      old.oid ∧
    (update_announcement announcement_id message expiration_date start_date
        teacher now db).2.teachers = db.teachers ∧
    (update_announcement announcement_id message expiration_date start_date
        teacher now db).2.announcements.length =
      db.announcements.length ∧
    (∀ b ∈ db.announcements, b.oid ≠ announcement_id →
      b ∈ (update_announcement announcement_id message expiration_date
        start_date teacher now db).2.announcements) ∧
    get_announcement announcement_id
        (update_announcement announcement_id message expiration_date
          start_date teacher now db).2 =
      Except.ok (serialize_announcement
        (applySet message start_date expiration_date teacher now old)) := by
  have hok := datesOk_of_valid expiration_date start_date hE hS
  have hupd : findById
      (updateFirst db.announcements announcement_id
        (applySet message start_date expiration_date teacher now))
      announcement_id =
      some (applySet message start_date expiration_date teacher now old) :=
    findById_updateFirst announcement_id
      (applySet message start_date expiration_date teacher now)
      db.announcements old hFind rfl
  have heq : update_announcement announcement_id message expiration_date
      start_date teacher now db =
      (Except.ok (some (serialize_announcement
        (applySet message start_date expiration_date teacher now old))),
       { db with announcements :=
          (updateFirst db.announcements announcement_id
            (applySet message start_date expiration_date teacher now)) }) := by
    simp [update_announcement, hA, hV, hFind, hok, hM, hupd]
  refine ⟨heq, rfl, rfl, rfl, rfl, rfl, rfl, rfl, rfl, ?_, ?_, ?_, ?_⟩
  · rw [heq]
  · rw [heq]
    exact updateFirst_length announcement_id _ db.announcements
  · intro b hb hbne
    rw [heq]
    exact updateFirst_mem_of_ne announcement_id _ db.announcements b hb hbne
  · rw [heq]
    simp [get_announcement, hV, hupd]

theorem update_overwrites_and_rereads_witness :
    findById db1.announcements oid0 = some doc0 ∧
    update_announcement oid0 "  New text " "2099-12-31" (some "2025-06-01")
        "alice" "2025-06-01T10:00:00" db1 =
      (Except.ok (some
        { id := oid0
          message := "New text"
          start_date := some "2025-06-01"
          expiration_date := "2099-12-31"
          created_by := "alice"
          created_at := "2025-01-01T08:00:00"
          updated_by := some "alice"
          updated_at := some "2025-06-01T10:00:00" }),
       { announcements :=
          [{ oid := oid0
             message := "New text"
             start_date := some "2025-06-01"
             expiration_date := "2099-12-31"
             created_by := "alice"
             created_at := "2025-01-01T08:00:00"
             updated_by := some "alice"
             updated_at := some "2025-06-01T10:00:00" }]
         teachers := ["alice"] }) := by
  refine ⟨by decide, ?_⟩
  rw [(update_overwrites_and_rereads db1 oid0 "  New text " "2099-12-31"
    (some "2025-06-01") "alice" "2025-06-01T10:00:00" doc0 (by decide)
    (by decide) (by decide) (by decide)
    (fun s h => by cases h; decide) (by decide)).1]
  rfl

/-! ### Failure atomicity -/

theorem eraseFirst_not_found (announcement_id : String) :
    ∀ l : List Announcement, findById l announcement_id = none →
    eraseFirst l announcement_id = l := by
  intro l
  induction l with
  | nil => intro _; rfl
  | cons a rest ih =>
    intro h
    by_cases ha : a.oid = announcement_id
    · simp [findById, List.find?, ha] at h
    · have hrest : findById rest announcement_id = none := by
        simpa [findById, List.find?, ha] using h
      simp [eraseFirst, ha, ih hrest]

/-- C5. Every failing operation leaves both stores untouched; in particular
a write with an unknown teacher fails `Unauthorized` without mutation, and
an update with an unparsable `expiration_date` on an existing id fails
`InvalidDate` with the record unchanged. -/
theorem failed_ops_leave_stores_unchanged (db : DB) :
    (∀ (message expiration_date : String) (start_date : Option String)
      (teacher now newId : String) (e : ApiError),
      (create_announcement message expiration_date start_date teacher now
        newId db).1 = Except.error e →
      (create_announcement message expiration_date start_date teacher now
        newId db).2 = db) ∧
    (∀ (announcement_id message expiration_date : String)
      (start_date : Option String) (teacher now : String) (e : ApiError),
      (update_announcement announcement_id message expiration_date
        start_date teacher now db).1 = Except.error e →
      (update_announcement announcement_id message expiration_date
        start_date teacher now db).2 = db) ∧
    (∀ (announcement_id teacher : String) (e : ApiError),
      (delete_announcement announcement_id teacher db).1 = Except.error e →
      (delete_announcement announcement_id teacher db).2 = db) ∧
    (∀ (announcement_id message expiration_date : String)
      (start_date : Option String) (teacher now newId : String),
      teacherExists db teacher = false →
      (create_announcement message expiration_date start_date teacher now
        newId db).1 = Except.error ApiError.unauthorized ∧
      (update_announcement announcement_id message expiration_date
        start_date teacher now db).1 =
        Except.error ApiError.unauthorized ∧
      (delete_announcement announcement_id teacher db).1 =
        Except.error ApiError.unauthorized) ∧
    (∀ (announcement_id message expiration_date : String)
      (start_date : Option String) (teacher now : String)
      (a : Announcement),
      teacherExists db teacher = true →
      isValidObjectId announcement_id = true →
      findById db.announcements announcement_id = some a →
      validDate expiration_date = false →
      (update_announcement announcement_id message expiration_date
        start_date teacher now db).1 = Except.error ApiError.invalidDate ∧
      (update_announcement announcement_id message expiration_date
        start_date teacher now db).2 = db ∧
      findById (update_announcement announcement_id message expiration_date
        start_date teacher now db).2.announcements announcement_id =
        some a) := by
  have hcreate : ∀ (message expiration_date : String)
      (start_date : Option String) (teacher now newId : String)
      (e : ApiError),
      (create_announcement message expiration_date start_date teacher now
        newId db).1 = Except.error e →
      (create_announcement message expiration_date start_date teacher now
        newId db).2 = db := by
    intro message expiration_date start_date teacher now newId e h
    by_cases hT : teacherExists db teacher
    · by_cases hD : datesOk expiration_date start_date
      · by_cases hMsg : pyStrip message = ""
        · simp [create_announcement, hT, hD, hMsg]
        · simp [create_announcement, hT, hD, hMsg] at h
      · simp [create_announcement, hT, hD]
    · simp [create_announcement, hT]
  have hupdate : ∀ (announcement_id message expiration_date : String)
      (start_date : Option String) (teacher now : String) (e : ApiError),
      (update_announcement announcement_id message expiration_date
        start_date teacher now db).1 = Except.error e →
      (update_announcement announcement_id message expiration_date
        start_date teacher now db).2 = db := by
    intro announcement_id message expiration_date start_date teacher now e h
    by_cases hT : teacherExists db teacher
    · by_cases hV : isValidObjectId announcement_id
      · cases hF : findById db.announcements announcement_id with
        | none => simp [update_announcement, hT, hV, hF]
        | some a =>
          by_cases hD : datesOk expiration_date start_date
          · by_cases hMsg : pyStrip message = ""
            · simp [update_announcement, hT, hV, hF, hD, hMsg]
            · simp [update_announcement, hT, hV, hF, hD, hMsg] at h
          · simp [update_announcement, hT, hV, hF, hD]
      · simp [update_announcement, hT, hV]
    · simp [update_announcement, hT]
  have hdelete : ∀ (announcement_id teacher : String) (e : ApiError),
      (delete_announcement announcement_id teacher db).1 = Except.error e →
      (delete_announcement announcement_id teacher db).2 = db := by
    intro announcement_id teacher e h
    by_cases hT : teacherExists db teacher
    · by_cases hV : isValidObjectId announcement_id
      · cases hF : findById db.announcements announcement_id with
        | none =>
          simp [delete_announcement, hT, hV, hF,
            eraseFirst_not_found announcement_id db.announcements hF]
        | some a => simp [delete_announcement, hT, hV, hF] at h
      · simp [delete_announcement, hT, hV]
    · simp [delete_announcement, hT]
  refine ⟨hcreate, hupdate, hdelete, ?_, ?_⟩
  · intro announcement_id message expiration_date start_date teacher now
      newId hT
    refine ⟨?_, ?_, ?_⟩
    · simp [create_announcement, hT]
    · simp [update_announcement, hT]
    · simp [delete_announcement, hT]
  · intro announcement_id message expiration_date start_date teacher now a
      hT hV hF hE
    have hD : datesOk expiration_date start_date = false := by
      simp [datesOk, hE]
    have h1 : (update_announcement announcement_id message expiration_date
        start_date teacher now db).1 =
        Except.error ApiError.invalidDate := by
      simp [update_announcement, hT, hV, hF, hD]
    have h2 : (update_announcement announcement_id message expiration_date
        start_date teacher now db).2 = db := by
      simp [update_announcement, hT, hV, hF, hD]
    exact ⟨h1, h2, by rw [h2]; exact hF⟩

theorem failed_ops_leave_stores_unchanged_witness :
    teacherExists db1 "bob" = false ∧
    (create_announcement "Hello" "2099-01-01" none "bob"
      "2025-01-02T09:30:00" oid1 db1).1 =
      Except.error ApiError.unauthorized ∧
    teacherExists db1 "alice" = true ∧
    validDate "not-a-date" = false ∧
    (update_announcement oid0 "Hello" "not-a-date" none "alice"
      "2025-01-02T09:30:00" db1).1 = Except.error ApiError.invalidDate ∧
    (update_announcement oid0 "Hello" "not-a-date" none "alice"
      "2025-01-02T09:30:00" db1).2 = db1 := by
  have h := failed_ops_leave_stores_unchanged db1
  have hu := h.2.2.2.1 oid1 "Hello" "2099-01-01" none "bob"
    "2025-01-02T09:30:00" oid1 (by decide)
  have hd := h.2.2.2.2 oid0 "Hello" "not-a-date" none "alice"
    "2025-01-02T09:30:00" doc0 (by decide) (by decide) (by decide)
    (by decide)
  exact ⟨by decide, hu.1, by decide, by decide, hd.1, hd.2.1⟩

/-! ### The get endpoint -/

/-- C6. `get` fails `InvalidId` exactly on syntactically invalid ObjectIds,
fails `NotFound` exactly on well-formed ids with no matching document, and
otherwise returns the matching announcement with its id serialized as the
string field `id`. -/
theorem get_error_taxonomy (announcement_id : String) (db : DB) :
    (get_announcement announcement_id db =
        Except.error ApiError.invalidId ↔
      isValidObjectId announcement_id = false) ∧
    (get_announcement announcement_id db = Except.error ApiError.notFound ↔
      (isValidObjectId announcement_id = true ∧
        findById db.announcements announcement_id = none)) ∧
    (∀ a : Announcement, isValidObjectId announcement_id = true →
      findById db.announcements announcement_id = some a →
      get_announcement announcement_id db =
        Except.ok (serialize_announcement a) ∧
      (serialize_announcement a).id = a.oid) := by
  by_cases hV : isValidObjectId announcement_id
  · cases hF : findById db.announcements announcement_id with
    | none =>
      refine ⟨?_, ?_, ?_⟩
      · simp [get_announcement, hV, hF]
      · simp [get_announcement, hV, hF]
      · intro a _ ha; simp at ha
    | some a =>
      refine ⟨?_, ?_, ?_⟩
      · simp [get_announcement, hV, hF]
      · simp [get_announcement, hV, hF]
      · intro b _ hb
        cases hb
        exact ⟨by simp [get_announcement, hV, hF], rfl⟩
  · refine ⟨?_, ?_, ?_⟩
    · simp [get_announcement, hV, Bool.of_not_eq_true hV]
    · simp [get_announcement, hV]
    · intro a ha; rw [ha] at hV; exact absurd rfl hV

theorem get_error_taxonomy_witness :
    isValidObjectId "nope" = false ∧
    get_announcement "nope" db1 = Except.error ApiError.invalidId ∧
    isValidObjectId oid1 = true ∧
    findById db1.announcements oid1 = none ∧
    get_announcement oid1 db1 = Except.error ApiError.notFound ∧
    get_announcement oid0 db1 =
      Except.ok (serialize_announcement doc0) := by
  refine ⟨by decide, ?_, by decide, by decide, ?_, ?_⟩
  · exact (get_error_taxonomy "nope" db1).1.mpr (by decide)
  · exact (get_error_taxonomy oid1 db1).2.1.mpr ⟨by decide, by decide⟩
  · exact ((get_error_taxonomy oid0 db1).2.2 doc0 (by decide)
      (by decide)).1

/-! ### Update error ordering and the defensive 500 -/

/-- C7. In `update`, after authentication, the id syntax check and the
existence check come before field validation: a malformed id always yields
`InvalidId` and a well-formed but absent id always yields `NotFound`,
whatever the dates and message are; conversely `InvalidDate` and
`EmptyMessage` can only arise for a well-formed, existing id. -/
theorem update_id_checks_precede_field_validation
    (db : DB) (announcement_id message expiration_date : String)
    (start_date : Option String) (teacher now : String)
    (hA : teacherExists db teacher = true) :
    (isValidObjectId announcement_id = false →
      (update_announcement announcement_id message expiration_date
        start_date teacher now db).1 = Except.error ApiError.invalidId) ∧
    (isValidObjectId announcement_id = true →
      findById db.announcements announcement_id = none →
      (update_announcement announcement_id message expiration_date
        start_date teacher now db).1 = Except.error ApiError.notFound) ∧
    ((update_announcement announcement_id message expiration_date
        start_date teacher now db).1 =
        Except.error ApiError.invalidDate →
      isValidObjectId announcement_id = true ∧
      (findById db.announcements announcement_id).isSome = true) ∧
    ((update_announcement announcement_id message expiration_date
        start_date teacher now db).1 =
        Except.error ApiError.emptyMessage →
      isValidObjectId announcement_id = true ∧
      (findById db.announcements announcement_id).isSome = true) := by
  refine ⟨?_, ?_, ?_, ?_⟩
  · intro hV
    simp [update_announcement, hA, hV]
  · intro hV hF
    simp [update_announcement, hA, hV, hF]
  · intro h
    by_cases hV : isValidObjectId announcement_id
    · cases hF : findById db.announcements announcement_id with
      | none => simp [update_announcement, hA, hV, hF] at h
      | some a => exact ⟨hV, by simp [hF]⟩
    · simp [update_announcement, hA, hV] at h
  · intro h
    by_cases hV : isValidObjectId announcement_id
    · cases hF : findById db.announcements announcement_id with
      | none => simp [update_announcement, hA, hV, hF] at h
      | some a => exact ⟨hV, by simp [hF]⟩
    · simp [update_announcement, hA, hV] at h

theorem update_id_checks_precede_field_validation_witness :
    teacherExists db1 "alice" = true ∧
    isValidObjectId "nope" = false ∧
    (update_announcement "nope" "   " "not-a-date" none "alice"
      "2025-01-02T09:30:00" db1).1 = Except.error ApiError.invalidId ∧
    isValidObjectId oid1 = true ∧
    findById db1.announcements oid1 = none ∧
    (update_announcement oid1 "   " "not-a-date" none "alice"
      "2025-01-02T09:30:00" db1).1 = Except.error ApiError.notFound := by
  refine ⟨by decide, by decide, ?_, by decide, by decide, ?_⟩
  · exact (update_id_checks_precede_field_validation db1 "nope" "   "
      "not-a-date" none "alice" "2025-01-02T09:30:00" (by decide)).1
      (by decide)
  · exact (update_id_checks_precede_field_validation db1 oid1 "   "
      "not-a-date" none "alice" "2025-01-02T09:30:00" (by decide)).2.1
      (by decide) (by decide)

/-- C8. The defensive `UpdateFailed` (500) branch — the store reporting
neither a match nor a modification for an id just confirmed to exist — is
unreachable: `update` never returns it, because `update_one` on the id that
`find_one` just returned always matches that document. -/
theorem update_never_updateFailed
    (db : DB) (announcement_id message expiration_date : String)
    (start_date : Option String) (teacher now : String) :
    ((update_announcement announcement_id message expiration_date
        start_date teacher now db).1 =
      Except.error ApiError.updateFailed) = False := by
  apply eq_false
  intro h
  by_cases hT : teacherExists db teacher
  · by_cases hV : isValidObjectId announcement_id
    · cases hF : findById db.announcements announcement_id with
      | none => simp [update_announcement, hT, hV, hF] at h
      | some a =>
        by_cases hD : datesOk expiration_date start_date
        · by_cases hMsg : pyStrip message = ""
          · simp [update_announcement, hT, hV, hF, hD, hMsg] at h
          · simp [update_announcement, hT, hV, hF, hD, hMsg] at h
        · simp [update_announcement, hT, hV, hF, hD] at h
    · simp [update_announcement, hT, hV] at h
  · simp [update_announcement, hT] at h

/-! ### The delete endpoint -/

theorem findById_eq_none_of_oid_not_mem (announcement_id : String)
    (l : List Announcement)
    (h : announcement_id ∉ l.map Announcement.oid) :
    findById l announcement_id = none := by
  unfold findById
  rw [List.find?_eq_none]
  intro x hx
  simp only [decide_eq_true_eq]
  intro hc
  exact h (List.mem_map.mpr ⟨x, hx, hc⟩)

theorem findById_eraseFirst_none (announcement_id : String) :
    ∀ l : List Announcement, (l.map Announcement.oid).Nodup →
    findById (eraseFirst l announcement_id) announcement_id = none := by
  intro l
  induction l with
  | nil => intro _; rfl
  | cons a rest ih =>
    intro hnd
    rw [List.map_cons, List.nodup_cons] at hnd
    by_cases ha : a.oid = announcement_id
    · have hmem : announcement_id ∉ rest.map Announcement.oid := ha ▸ hnd.1
      simpa [eraseFirst, ha] using
        findById_eq_none_of_oid_not_mem announcement_id rest hmem
    · have hrest := ih hnd.2
      simp only [eraseFirst, if_neg ha]
      unfold findById at hrest ⊢
      rw [List.find?_cons_of_neg _ (by simp [ha])]
      exact hrest

/-- C9. With a unique-id store, an authenticated delete of an existing
announcement returns the fixed confirmation message, removes exactly that
document, and a subsequent `get` on the same id yields `NotFound`. -/
theorem delete_then_get_notFound
    (db : DB) (announcement_id teacher : String) (a : Announcement)
    (hA : teacherExists db teacher = true)
    (hV : isValidObjectId announcement_id = true)
    (hFind : findById db.announcements announcement_id = some a)
    (hNodup : (db.announcements.map Announcement.oid).Nodup) :
    delete_announcement announcement_id teacher db =
      (Except.ok "Announcement deleted successfully",
       { db with announcements :=
          (eraseFirst db.announcements announcement_id) }) ∧
    get_announcement announcement_id
        (delete_announcement announcement_id teacher db).2 =
      Except.error ApiError.notFound := by
  have heq : delete_announcement announcement_id teacher db =
      (Except.ok "Announcement deleted successfully",
       { db with announcements :=
          (eraseFirst db.announcements announcement_id) }) := by
    simp [delete_announcement, hA, hV, hFind]
  refine ⟨heq, ?_⟩
  rw [heq]
  simp [get_announcement, hV,
    findById_eraseFirst_none announcement_id db.announcements hNodup]

theorem delete_then_get_notFound_witness :
    teacherExists db1 "alice" = true ∧
    findById db1.announcements oid0 = some doc0 ∧
    delete_announcement oid0 "alice" db1 =
      (Except.ok "Announcement deleted successfully",
       { announcements := [], teachers := ["alice"] }) ∧
    get_announcement oid0 (delete_announcement oid0 "alice" db1).2 =
      Except.error ApiError.notFound := by
  have h := delete_then_get_notFound db1 oid0 "alice" doc0 (by decide)
    (by decide) (by decide) (by decide)
  exact ⟨by decide, by decide, by rw [h.1]; rfl, h.2⟩

/-! ### Trimming in update -/

theorem dropWhile_head_false (p : Char → Bool) :
    ∀ (l : List Char) (x : Char) (xs : List Char),
    l.dropWhile p = x :: xs → p x = false := by
  intro l
  induction l with
  | nil => intro x xs h; cases h
  | cons a as ih =>
    intro x xs h
    by_cases ha : p a
    · rw [List.dropWhile_cons_of_pos ha] at h
      exact ih x xs h
    · rw [List.dropWhile_cons_of_neg ha] at h
      cases h
      exact Bool.eq_false_iff.mpr ha

theorem dropWhile_dropWhile (p : Char → Bool) (l : List Char) :
    (l.dropWhile p).dropWhile p = l.dropWhile p := by
  cases h : l.dropWhile p with
  | nil => rfl
  | cons x xs =>
    have hx := dropWhile_head_false p l x xs h
    rw [List.dropWhile_cons_of_neg (by simp [hx])]

theorem pyStripList_idem (l : List Char) :
    pyStripList (pyStripList l) = pyStripList l := by
  unfold pyStripList
  set p := Char.isWhitespace with hp
  set A := l.dropWhile p with hA
  set B := A.reverse.dropWhile p with hB
  have hpre : B.reverse <+: A := by
    have hsuf : B <:+ A.reverse := List.dropWhile_suffix p
    have := List.reverse_prefix.mpr hsuf
    rwa [List.reverse_reverse] at this
  have h1 : B.reverse.dropWhile p = B.reverse := by
    cases hR : B.reverse with
    | nil => rfl
    | cons x xs =>
      obtain ⟨t, ht⟩ := hpre
      rw [hR] at ht
      have hx : p x = false :=
        dropWhile_head_false p l x (xs ++ t) (by rw [← hA, ← ht]; rfl)
      rw [List.dropWhile_cons_of_neg (by simp [hx])]
  rw [h1, List.reverse_reverse, hB, dropWhile_dropWhile]

theorem pyStrip_idem (s : String) : pyStrip (pyStrip s) = pyStrip s :=
  congrArg String.mk (pyStripList_idem s.data)

/-- C10. A successful update stores and returns the trimmed message: the
message field of the response and of the stored document equals the input
with leading and trailing whitespace removed, is non-empty, and carries no
surrounding whitespace of its own. -/
theorem update_stores_trimmed_message
    (db : DB) (announcement_id message expiration_date : String)
    (start_date : Option String) (teacher now : String)
    (r : Option AnnouncementOut) (db' : DB)
    (h : update_announcement announcement_id message expiration_date
      start_date teacher now db = (Except.ok r, db')) :
    ∃ out : AnnouncementOut, r = some out ∧
      out.message = pyStrip message ∧
      out.message ≠ "" ∧
      pyStrip out.message = out.message ∧
      ∃ a : Announcement,
        findById db'.announcements announcement_id = some a ∧
        a.message = pyStrip message := by
  by_cases hT : teacherExists db teacher
  · by_cases hV : isValidObjectId announcement_id
    · cases hF : findById db.announcements announcement_id with
      | none => simp [update_announcement, hT, hV, hF] at h
      | some old =>
        by_cases hD : datesOk expiration_date start_date
        · by_cases hMsg : pyStrip message = ""
          · simp [update_announcement, hT, hV, hF, hD, hMsg] at h
          · have hupd : findById
                (updateFirst db.announcements announcement_id
                  (applySet message start_date expiration_date teacher now))
                announcement_id =
                some (applySet message start_date expiration_date teacher
                  now old) :=
              findById_updateFirst announcement_id
                (applySet message start_date expiration_date teacher now)
                db.announcements old hF rfl
            have heq : update_announcement announcement_id message
                expiration_date start_date teacher now db =
                (Except.ok (some (serialize_announcement
                  (applySet message start_date expiration_date teacher now
                    old))),
                 { db with announcements :=
                    (updateFirst db.announcements announcement_id
                      (applySet message start_date expiration_date teacher
                        now)) }) := by
              simp [update_announcement, hT, hV, hF, hD, hMsg, hupd]
            rw [heq] at h
            rw [Prod.mk.injEq] at h
            obtain ⟨h1, h2⟩ := h
            rw [Except.ok.injEq] at h1
            refine ⟨serialize_announcement
              (applySet message start_date expiration_date teacher now old),
              h1.symm, rfl, hMsg, pyStrip_idem message,
              applySet message start_date expiration_date teacher now old,
              ?_, rfl⟩
            rw [← h2]
            exact hupd
        · simp [update_announcement, hT, hV, hF, hD] at h
    · simp [update_announcement, hT, hV] at h
  · simp [update_announcement, hT] at h

theorem update_stores_trimmed_message_witness :
    update_announcement oid0 "  hi there  " "2099-01-01" none "alice"
        "2025-03-03T10:00:00" db1 =
      (Except.ok (some
        { id := oid0
          message := "hi there"
          start_date := none
          expiration_date := "2099-01-01"
          created_by := "alice"
          created_at := "2025-01-01T08:00:00"
          updated_by := some "alice"
          updated_at := some "2025-03-03T10:00:00" }),
       { announcements :=
          [{ oid := oid0
             message := "hi there"
             start_date := none
             expiration_date := "2099-01-01"
             created_by := "alice"
             created_at := "2025-01-01T08:00:00"
             updated_by := some "alice"
             updated_at := some "2025-03-03T10:00:00" }]
         teachers := ["alice"] }) ∧
    (∃ out : AnnouncementOut,
      some
        { id := oid0
          message := "hi there"
          start_date := none
          expiration_date := "2099-01-01"
          created_by := "alice"
          created_at := "2025-01-01T08:00:00"
          updated_by := some "alice"
          updated_at := some "2025-03-03T10:00:00" } = some out ∧
      out.message = pyStrip "  hi there  " ∧
      out.message ≠ "" ∧
      pyStrip out.message = out.message ∧
      ∃ a : Announcement,
        findById
          ({ announcements :=
              [{ oid := oid0
                 message := "hi there"
                 start_date := none
                 expiration_date := "2099-01-01"
                 created_by := "alice"
                 created_at := "2025-01-01T08:00:00"
                 updated_by := some "alice"
                 updated_at := some "2025-03-03T10:00:00" }]
             teachers := ["alice"] } : DB).announcements oid0 = some a ∧
        a.message = pyStrip "  hi there  ") := by
  have h : update_announcement oid0 "  hi there  " "2099-01-01" none
      "alice" "2025-03-03T10:00:00" db1 =
      (Except.ok (some
        { id := oid0
          message := "hi there"
          start_date := none
          expiration_date := "2099-01-01"
          created_by := "alice"
          created_at := "2025-01-01T08:00:00"
          updated_by := some "alice"
          updated_at := some "2025-03-03T10:00:00" }),
       { announcements :=
          [{ oid := oid0
             message := "hi there"
             start_date := none
             expiration_date := "2099-01-01"
             created_by := "alice"
             created_at := "2025-01-01T08:00:00"
             updated_by := some "alice"
             updated_at := some "2025-03-03T10:00:00" }]
         teachers := ["alice"] }) := by rfl
  exact ⟨h, update_stores_trimmed_message db1 oid0 "  hi there  "
    "2099-01-01" none "alice" "2025-03-03T10:00:00" _ _ h⟩

end Announcements
